import Mathlib

/-!
Shallow embedding of `Libraries/PermissionsAndroid/PermissionsAndroid.android.js`.

The module is a callback-to-promise adapter over two native collaborators:
`AndroidPermissions` (checkPermission / requestPermission /
shouldShowRequestPermissionRationale, each taking a success and a failure
callback) and `DialogManagerAndroid` (showAlert).  We embed one invocation of
each public operation as a pure function from the collaborators' responses
(an `Env`) to the list of observable events the invocation performs, in
order: the collaborator calls it issues and the settlement calls
(`resolve` / `reject`) it makes on the promise it returned.
-/

/-- Response of one native callback-pair call: either the success callback
fires with a boolean, or the failure callback fires with an error string. -/
inductive NativeResp where
  | ok (result : Bool)
  | err (error : String)
deriving DecidableEq, Repr

/-- Which continuation of the rationale dialog (`DialogManagerAndroid.showAlert`)
fires: the error/dismiss callback or the action ("proceed") callback. -/
inductive DialogOutcome where
  | proceed
  | dismiss
deriving DecidableEq, Repr

/-- The collaborator responses governing one invocation: which callback each
native call fires, and with what value. -/
structure Env where
  shouldShowResp : NativeResp
  dialogOutcome : DialogOutcome
  requestResp : NativeResp
  checkResp : NativeResp
deriving DecidableEq, Repr

/-- Observable events of one invocation, in program order: calls made to the
two native collaborators, and the settlement calls made on the returned
promise. -/
inductive Event where
  | nativeCheck (permission : String)
  | nativeRequest (permission : String)
  | shouldShowQuery (permission : String)
  | rationaleAlert (title message : String)
  | errorAlert (message : String)
  | resolveCall (result : Bool)
  | rejectCall (error : Option String)
deriving DecidableEq, Repr

/-- The settled value of a promise: fulfilled with a boolean, or rejected
with an optional error value (`reject()` with no argument carries `none`). -/
inductive Outcome where
  | fulfilled (result : Bool)
  | rejected (error : Option String)
deriving DecidableEq, Repr

/-- Whether an event is a settlement call (`resolve` or `reject`). -/
def Event.isSettle : Event → Bool
  | Event.resolveCall _ => true
  | Event.rejectCall _ => true
  | _ => false

/-- The settlement calls an invocation makes, in order. -/
def settleEvents (trace : List Event) : List Event :=
  trace.filter Event.isSettle

/-- The outcome a settlement event produces, if it is one. -/
def Event.settleOutcome : Event → Option Outcome
  | Event.resolveCall b => some (Outcome.fulfilled b)
  | Event.rejectCall e => some (Outcome.rejected e)
  | _ => none

/-- The outcome of the first settlement call in a trace: the value the
returned promise settles with (later settlement calls would be no-ops). -/
def firstSettle : List Event → Option Outcome
  | [] => none
  | e :: rest =>
      match e.settleOutcome with
      | some o => some o
      | none => firstSettle rest

/-- `PERMISSIONS`: the static catalog of dangerous-permission identifier
strings, in source order. -/
def PERMISSIONS : List (String × String) :=
  [("READ_CALENDAR", "android.permission.READ_CALENDAR"),
   ("WRITE_CALENDAR", "android.permission.WRITE_CALENDAR"),
   ("CAMERA", "android.permission.CAMERA"),
   ("READ_CONTACTS", "android.permission.READ_CONTACTS"),
   ("WRITE_CONTACTS", "android.permission.WRITE_CONTACTS"),
   ("GET_ACCOUNTS", "android.permission.GET_ACCOUNTS"),
   ("ACCESS_FINE_LOCATION", "android.permission.ACCESS_FINE_LOCATION"),
   ("ACCESS_COARSE_LOCATION", "android.permission.ACCESS_COARSE_LOCATION"),
   ("RECORD_AUDIO", "android.permission.RECORD_AUDIO"),
   ("READ_PHONE_STATE", "android.permission.READ_PHONE_STATE"),
   ("CALL_PHONE", "android.permission.CALL_PHONE"),
   ("READ_CALL_LOG", "android.permission.READ_CALL_LOG"),
   ("WRITE_CALL_LOG", "android.permission.WRITE_CALL_LOG"),
   ("ADD_VOICEMAIL", "com.android.voicemail.permission.ADD_VOICEMAIL"),
   ("USE_SIP", "android.permission.USE_SIP"),
   ("PROCESS_OUTGOING_CALLS", "android.permission.PROCESS_OUTGOING_CALLS"),
   ("BODY_SENSORS", "android.permission.BODY_SENSORS"),
   ("SEND_SMS", "android.permission.SEND_SMS"),
   ("RECEIVE_SMS", "android.permission.RECEIVE_SMS"),
   ("READ_SMS", "android.permission.READ_SMS"),
   ("RECEIVE_WAP_PUSH", "android.permission.RECEIVE_WAP_PUSH"),
   ("RECEIVE_MMS", "android.permission.RECEIVE_MMS"),
   ("READ_EXTERNAL_STORAGE", "android.permission.READ_EXTERNAL_STORAGE"),
   ("WRITE_EXTERNAL_STORAGE", "android.permission.WRITE_EXTERNAL_STORAGE")]

/-- Catalog lookup by symbolic name (`PERMISSIONS.NAME` in the source). -/
def catalogLookup (name : String) : Option String :=
  (PERMISSIONS.find? (fun kv => kv.1 == name)).map (fun kv => kv.2)

/-- `checkPermission(permission)`: calls
`AndroidPermissions.checkPermission(permission, (perm, result) => resolve(result),
(error) => reject(error))`. -/
def checkPermission (env : Env) (permission : String) : List Event :=
  Event.nativeCheck permission ::
    (match env.checkResp with
     | NativeResp.ok result => [Event.resolveCall result]
     | NativeResp.err error => [Event.rejectCall (some error)])

/-- `requestPermission(permission)`: calls
`AndroidPermissions.requestPermission(permission, (perm, result) => resolve(result),
(error) => reject(error))`. -/
def requestPermission (env : Env) (permission : String) : List Event :=
  Event.nativeRequest permission ::
    (match env.requestResp with
     | NativeResp.ok result => [Event.resolveCall result]
     | NativeResp.err error => [Event.rejectCall (some error)])

/-- `requestPermissionWithRationale(permission, title, message)`: queries
`shouldShowRequestPermissionRationale`; on failure rejects with that error;
on `shouldShow = true` shows the rationale alert, whose error/dismiss
continuation shows a fixed second alert and rejects with no value, and whose
action continuation runs the local `requestPermission` closure; on
`shouldShow = false` runs that closure directly.  The closure invokes
`this.requestPermission(permission)` and settles the outer promise with
the inner promise's outcome (`.then(resolve).catch(reject)`), so phase 2's
events coincide with `requestPermission env permission`. -/
def requestPermissionWithRationale (env : Env) (permission title message : String) :
    List Event :=
  Event.shouldShowQuery permission ::
    (match env.shouldShowResp with
     | NativeResp.ok shouldShow =>
         if shouldShow then
           Event.rationaleAlert title message ::
             (match env.dialogOutcome with
              | DialogOutcome.dismiss =>
                  [Event.errorAlert "Error Requesting Permissions",
                   Event.rejectCall none]
              | DialogOutcome.proceed => requestPermission env permission)
         else requestPermission env permission
     | NativeResp.err error => [Event.rejectCall (some error)])

/-- One run of `checkPermission` as the code's branching relation: the native
call fires exactly one of its two callbacks, as `env` dictates. -/
inductive CheckRun (p : String) : Env → List Event → Prop where
  | ok (env : Env) (b : Bool) (h : env.checkResp = NativeResp.ok b) :
      CheckRun p env [Event.nativeCheck p, Event.resolveCall b]
  | err (env : Env) (e : String) (h : env.checkResp = NativeResp.err e) :
      CheckRun p env [Event.nativeCheck p, Event.rejectCall (some e)]

/-- One run of `requestPermission`, analogously. -/
inductive RequestRun (p : String) : Env → List Event → Prop where
  | ok (env : Env) (b : Bool) (h : env.requestResp = NativeResp.ok b) :
      RequestRun p env [Event.nativeRequest p, Event.resolveCall b]
  | err (env : Env) (e : String) (h : env.requestResp = NativeResp.err e) :
      RequestRun p env [Event.nativeRequest p, Event.rejectCall (some e)]

/-- One run of `requestPermissionWithRationale`: one constructor per control
path of the source (rationale query fails; no rationale needed; dialog
proceeds; dialog dismisses). -/
inductive RwrRun (p t m : String) : Env → List Event → Prop where
  | rationaleErr (env : Env) (e : String)
      (h : env.shouldShowResp = NativeResp.err e) :
      RwrRun p t m env [Event.shouldShowQuery p, Event.rejectCall (some e)]
  | direct (env : Env) (h : env.shouldShowResp = NativeResp.ok false) :
      RwrRun p t m env (Event.shouldShowQuery p :: requestPermission env p)
  | proceed (env : Env) (h1 : env.shouldShowResp = NativeResp.ok true)
      (h2 : env.dialogOutcome = DialogOutcome.proceed) :
      RwrRun p t m env
        (Event.shouldShowQuery p :: Event.rationaleAlert t m ::
          requestPermission env p)
  | dismiss (env : Env) (h1 : env.shouldShowResp = NativeResp.ok true)
      (h2 : env.dialogOutcome = DialogOutcome.dismiss) :
      RwrRun p t m env
        [Event.shouldShowQuery p, Event.rationaleAlert t m,
         Event.errorAlert "Error Requesting Permissions",
         Event.rejectCall none]

/-- Substituting the permission argument inside the collaborator-call events;
title, message and settlement events carry no permission and are unchanged. -/
def setPerm (q : String) : Event → Event
  | Event.nativeCheck _ => Event.nativeCheck q
  | Event.nativeRequest _ => Event.nativeRequest q
  | Event.shouldShowQuery _ => Event.shouldShowQuery q
  | e => e

/-- Every run the relation admits is the trace the function computes. -/
theorem rwrRun_total (env : Env) (p t m : String) :
    RwrRun p t m env (requestPermissionWithRationale env p t m) := by
  unfold requestPermissionWithRationale
  match h : env.shouldShowResp with
  | NativeResp.err e => simpa [h] using RwrRun.rationaleErr env e h
  | NativeResp.ok false => simpa [h] using RwrRun.direct env h
  | NativeResp.ok true =>
      match h2 : env.dialogOutcome with
      | DialogOutcome.proceed => simpa [h, h2] using RwrRun.proceed env h h2
      | DialogOutcome.dismiss => simpa [h, h2] using RwrRun.dismiss env h h2

/-- Concrete response environment: rationale not needed, native grant. -/
def envGrant : Env :=
  ⟨NativeResp.ok false, DialogOutcome.proceed, NativeResp.ok true, NativeResp.ok true⟩

/-- Concrete response environment: rationale needed, dialog dismissed. -/
def envDismiss : Env :=
  ⟨NativeResp.ok true, DialogOutcome.dismiss, NativeResp.ok true, NativeResp.ok true⟩

/-- Concrete response environment: the rationale query itself fails. -/
def envQueryErr : Env :=
  ⟨NativeResp.err "boom", DialogOutcome.proceed, NativeResp.ok true, NativeResp.ok true⟩

/-- Concrete response environment: native denies the request. -/
def envDeny : Env :=
  ⟨NativeResp.ok false, DialogOutcome.proceed, NativeResp.ok false, NativeResp.ok false⟩

/-- Claim C1: in `requestPermissionWithRationale(id, title, message)` the
underlying native `requestPermission(id)` call is issued if and only if the
`shouldShowRationale` query succeeds with `false`, or succeeds with `true`
and the rationale dialog's proceed continuation fires. -/
theorem claim1_nativeRequest_iff (env : Env) (p t m : String) :
    Event.nativeRequest p ∈ requestPermissionWithRationale env p t m ↔
      (env.shouldShowResp = NativeResp.ok false ∨
       (env.shouldShowResp = NativeResp.ok true ∧
        env.dialogOutcome = DialogOutcome.proceed)) := by
  obtain ⟨ssr, dlg, rq, ck⟩ := env
  cases ssr with
  | ok b =>
      cases b <;> cases dlg <;> cases rq <;>
        simp [requestPermissionWithRationale, requestPermission]
  | err e => simp [requestPermissionWithRationale]

/-- Claim C2: when the rationale dialog's dismiss continuation fires, the
overall promise rejects with no error value, the native `requestPermission`
is never invoked, and the trace is exactly the rationale query, the
rationale alert, the fixed "Error Requesting Permissions" alert, and then
the empty rejection — so the second alert precedes the failure. -/
theorem claim2_dismiss_rejects (env : Env) (p t m : String)
    (h1 : env.shouldShowResp = NativeResp.ok true)
    (h2 : env.dialogOutcome = DialogOutcome.dismiss) :
    firstSettle (requestPermissionWithRationale env p t m) =
        some (Outcome.rejected none) ∧
      Event.nativeRequest p ∉ requestPermissionWithRationale env p t m ∧
      requestPermissionWithRationale env p t m =
        [Event.shouldShowQuery p, Event.rationaleAlert t m,
         Event.errorAlert "Error Requesting Permissions",
         Event.rejectCall none] := by
  simp [requestPermissionWithRationale, h1, h2, firstSettle, Event.settleOutcome]

/-- Witness for C2 at a concrete environment and arguments. -/
theorem claim2_dismiss_rejects_witness :
    firstSettle
        (requestPermissionWithRationale envDismiss "android.permission.CAMERA" "T" "M") =
        some (Outcome.rejected none) ∧
      Event.nativeRequest "android.permission.CAMERA" ∉
        requestPermissionWithRationale envDismiss "android.permission.CAMERA" "T" "M" ∧
      requestPermissionWithRationale envDismiss "android.permission.CAMERA" "T" "M" =
        [Event.shouldShowQuery "android.permission.CAMERA",
         Event.rationaleAlert "T" "M",
         Event.errorAlert "Error Requesting Permissions",
         Event.rejectCall none] :=
  claim2_dismiss_rejects envDismiss "android.permission.CAMERA" "T" "M" rfl rfl

/-- Claim C3: when the `shouldShowRationale` query itself fails with error
`e`, the overall promise rejects with that same error, no alert of either
kind is ever shown, and no native permission request is ever issued. -/
theorem claim3_query_failure_propagates (env : Env) (p t m e : String)
    (h : env.shouldShowResp = NativeResp.err e) :
    firstSettle (requestPermissionWithRationale env p t m) =
        some (Outcome.rejected (some e)) ∧
      (∀ a b, Event.rationaleAlert a b ∉ requestPermissionWithRationale env p t m) ∧
      (∀ msg, Event.errorAlert msg ∉ requestPermissionWithRationale env p t m) ∧
      Event.nativeRequest p ∉ requestPermissionWithRationale env p t m := by
  simp [requestPermissionWithRationale, h, firstSettle, Event.settleOutcome]

/-- Witness for C3 at a concrete environment and arguments. -/
theorem claim3_query_failure_propagates_witness :
    firstSettle
        (requestPermissionWithRationale envQueryErr "android.permission.CAMERA" "T" "M") =
        some (Outcome.rejected (some "boom")) ∧
      (∀ a b, Event.rationaleAlert a b ∉
        requestPermissionWithRationale envQueryErr "android.permission.CAMERA" "T" "M") ∧
      (∀ msg, Event.errorAlert msg ∉
        requestPermissionWithRationale envQueryErr "android.permission.CAMERA" "T" "M") ∧
      Event.nativeRequest "android.permission.CAMERA" ∉
        requestPermissionWithRationale envQueryErr "android.permission.CAMERA" "T" "M" :=
  claim3_query_failure_propagates envQueryErr "android.permission.CAMERA" "T" "M" "boom" rfl

/-- Claim C4: for every permission string, `checkPermission` fulfills with
exactly the boolean the native success callback reports and rejects with
exactly the native error when the failure callback fires, and
`requestPermission` adapts its native call the same way. -/
theorem claim4_callback_adaptation (env : Env) (p : String) :
    firstSettle (checkPermission env p) =
        some (match env.checkResp with
              | NativeResp.ok b => Outcome.fulfilled b
              | NativeResp.err e => Outcome.rejected (some e)) ∧
      firstSettle (requestPermission env p) =
        some (match env.requestResp with
              | NativeResp.ok b => Outcome.fulfilled b
              | NativeResp.err e => Outcome.rejected (some e)) := by
  obtain ⟨ssr, dlg, rq, ck⟩ := env
  constructor
  · cases ck <;> simp [checkPermission, firstSettle, Event.settleOutcome]
  · cases rq <;> simp [requestPermission, firstSettle, Event.settleOutcome]

/-- Claim C5: when the native layer reports denial (`false`) to
`requestPermission`, the promise fulfills with `false` — an explicit
denial, not a rejection. -/
theorem claim5_denial_fulfills_false (env : Env) (p : String)
    (h : env.requestResp = NativeResp.ok false) :
    firstSettle (requestPermission env p) = some (Outcome.fulfilled false) := by
  simp [requestPermission, h, firstSettle, Event.settleOutcome]

/-- Witness for C5 at a concrete environment. -/
theorem claim5_denial_fulfills_false_witness :
    firstSettle (requestPermission envDeny "android.permission.CAMERA") =
      some (Outcome.fulfilled false) :=
  claim5_denial_fulfills_false envDeny "android.permission.CAMERA" rfl

/-- Claim C6: whenever phase 2 runs (the rationale query succeeded with
`false`, or with `true` and the dialog proceeded),
`requestPermissionWithRationale` settles with exactly the outcome of a
direct `requestPermission` call on the same environment. -/
theorem claim6_phase2_refines_request (env : Env) (p t m : String)
    (h : env.shouldShowResp = NativeResp.ok false ∨
         (env.shouldShowResp = NativeResp.ok true ∧
          env.dialogOutcome = DialogOutcome.proceed)) :
    firstSettle (requestPermissionWithRationale env p t m) =
      firstSettle (requestPermission env p) := by
  rcases h with h | ⟨h1, h2⟩
  · cases hr : env.requestResp <;>
      simp [requestPermissionWithRationale, requestPermission, h, hr,
        firstSettle, Event.settleOutcome]
  · cases hr : env.requestResp <;>
      simp [requestPermissionWithRationale, requestPermission, h1, h2, hr,
        firstSettle, Event.settleOutcome]

/-- Witness for C6 at a concrete environment. -/
theorem claim6_phase2_refines_request_witness :
    firstSettle
        (requestPermissionWithRationale envGrant "android.permission.CAMERA" "T" "M") =
      firstSettle (requestPermission envGrant "android.permission.CAMERA") :=
  claim6_phase2_refines_request envGrant "android.permission.CAMERA" "T" "M" (Or.inl rfl)

/-- Claim C7: the catalog maps the symbolic names `CAMERA`, `READ_CONTACTS`
and `ACCESS_FINE_LOCATION` to exactly the platform identifier strings
`android.permission.CAMERA`, `android.permission.READ_CONTACTS` and
`android.permission.ACCESS_FINE_LOCATION`. -/
theorem claim7_catalog_values :
    catalogLookup "CAMERA" = some "android.permission.CAMERA" ∧
      catalogLookup "READ_CONTACTS" = some "android.permission.READ_CONTACTS" ∧
      catalogLookup "ACCESS_FINE_LOCATION" =
        some "android.permission.ACCESS_FINE_LOCATION" := by
  refine ⟨by decide, by decide, by decide⟩

/-- Claim C8: each of the three public operations settles exactly once for
every environment of collaborator responses: exactly one `resolve`/`reject`
call appears in its trace, so it never both fulfills and rejects and never
settles twice. -/
theorem claim8_settles_exactly_once (env : Env) (p t m : String) :
    (settleEvents (checkPermission env p)).length = 1 ∧
      (settleEvents (requestPermission env p)).length = 1 ∧
      (settleEvents (requestPermissionWithRationale env p t m)).length = 1 := by
  obtain ⟨ssr, dlg, rq, ck⟩ := env
  refine ⟨?_, ?_, ?_⟩
  · cases ck <;> simp [checkPermission, settleEvents, Event.isSettle]
  · cases rq <;> simp [requestPermission, settleEvents, Event.isSettle]
  · cases ssr with
    | ok b =>
        cases b <;> cases dlg <;> cases rq <;>
          simp [requestPermissionWithRationale, requestPermission, settleEvents,
            Event.isSettle]
    | err e => simp [requestPermissionWithRationale, settleEvents, Event.isSettle]

/-- Claim C9: the operations never consult the `PERMISSIONS` catalog: for
any two identifier strings (catalog members or not), each operation follows
the identical control flow, its trace differing only by substituting the
permission argument inside the collaborator calls — no membership
validation occurs, and the catalog constant plays no role. -/
theorem claim9_no_catalog_dependence (env : Env) (p q t m : String) :
    checkPermission env q = (checkPermission env p).map (setPerm q) ∧
      requestPermission env q = (requestPermission env p).map (setPerm q) ∧
      requestPermissionWithRationale env q t m =
        (requestPermissionWithRationale env p t m).map (setPerm q) := by
  obtain ⟨ssr, dlg, rq, ck⟩ := env
  refine ⟨?_, ?_, ?_⟩
  · cases ck <;> simp [checkPermission, setPerm]
  · cases rq <;> simp [requestPermission, setPerm]
  · cases ssr with
    | ok b =>
        cases b <;> cases dlg <;> cases rq <;>
          simp [requestPermissionWithRationale, requestPermission, setPerm]
    | err e => simp [requestPermissionWithRationale, setPerm]

/-- Claim C10: each operation is deterministic: two runs against the same
environment of collaborator responses produce the same trace — hence the
same collaborator calls with the same arguments, in the same order, and the
same settled outcome. -/
theorem claim10_deterministic (env : Env) (p t m : String) :
    (∀ tr1 tr2, CheckRun p env tr1 → CheckRun p env tr2 → tr1 = tr2) ∧
      (∀ tr1 tr2, RequestRun p env tr1 → RequestRun p env tr2 → tr1 = tr2) ∧
      (∀ tr1 tr2, RwrRun p t m env tr1 → RwrRun p t m env tr2 → tr1 = tr2) := by
  refine ⟨?_, ?_, ?_⟩ <;> intro tr1 tr2 h1 h2
  · cases h1 <;> cases h2 <;> simp_all
  · cases h1 <;> cases h2 <;> simp_all
  · cases h1 <;> cases h2 <;> simp_all

/-- Witness for C10: two concrete runs of `checkPermission` coincide. -/
theorem claim10_deterministic_witness :
    ([Event.nativeCheck "android.permission.CAMERA", Event.resolveCall true] :
        List Event) =
      [Event.nativeCheck "android.permission.CAMERA", Event.resolveCall true] :=
  (claim10_deterministic envGrant "android.permission.CAMERA" "T" "M").1
    [Event.nativeCheck "android.permission.CAMERA", Event.resolveCall true]
    [Event.nativeCheck "android.permission.CAMERA", Event.resolveCall true]
    (CheckRun.ok envGrant true rfl) (CheckRun.ok envGrant true rfl)
